import Mathlib

/-!
Verification of the Quest Chronicles game rules engine against its
specification.  The error taxonomy is embedded directly from
`custom_exceptions.py`; the four rule components (character model,
inventory and economy, quest state machine, combat engine) are embedded
from the specification, since their modules are exercised only through
the tests of the repository.
-/

namespace QuestChronicles

/-! ## Error taxonomy, embedded from `custom_exceptions.py`

Each Python `class X(Y)` line becomes a constructor `X` with
`parent X = some Y`.  `Exception` is the Python builtin root, included so
the taxonomy classes have a parent chain that terminates outside the
module. -/

/-- The Python classes of `custom_exceptions.py`, plus the builtin
`Exception` they ultimately derive from. -/
inductive PyClass where
  | Exception
  | GameError
  | DataError
  | CharacterError
  | CombatError
  | QuestError
  | InventoryError
  | InvalidDataFormatError
  | MissingDataFileError
  | CorruptedDataError
  | InvalidCharacterClassError
  | CharacterNotFoundError
  | CharacterDeadError
  | InsufficientLevelError
  | InvalidTargetError
  | CombatNotActiveError
  | AbilityOnCooldownError
  | QuestNotFoundError
  | QuestRequirementsNotMetError
  | QuestAlreadyCompletedError
  | QuestNotActiveError
  | InventoryFullError
  | ItemNotFoundError
  | InsufficientResourcesError
  | InvalidItemTypeError
  | SaveFileCorruptedError
  | InvalidSaveDataError
deriving DecidableEq

namespace PyClass

/-- The immediate base class of each class, exactly as written in the
`class X(Y):` headers of `custom_exceptions.py`. -/
def parent : PyClass → Option PyClass
  | .Exception => none
  | .GameError => some .Exception
  | .DataError => some .GameError
  | .CharacterError => some .GameError
  | .CombatError => some .GameError
  | .QuestError => some .GameError
  | .InventoryError => some .GameError
  | .InvalidDataFormatError => some .DataError
  | .MissingDataFileError => some .DataError
  | .CorruptedDataError => some .DataError
  | .InvalidCharacterClassError => some .CharacterError
  | .CharacterNotFoundError => some .CharacterError
  | .CharacterDeadError => some .CharacterError
  | .InsufficientLevelError => some .CharacterError
  | .InvalidTargetError => some .CombatError
  | .CombatNotActiveError => some .CombatError
  | .AbilityOnCooldownError => some .CombatError
  | .QuestNotFoundError => some .QuestError
  | .QuestRequirementsNotMetError => some .QuestError
  | .QuestAlreadyCompletedError => some .QuestError
  | .QuestNotActiveError => some .QuestError
  | .InventoryFullError => some .InventoryError
  | .ItemNotFoundError => some .InventoryError
  | .InsufficientResourcesError => some .InventoryError
  | .InvalidItemTypeError => some .InventoryError
  | .SaveFileCorruptedError => some .GameError
  | .InvalidSaveDataError => some .GameError

/-- The chain of strict ancestors of a class, obtained by iterating
`parent`; the fuel bound exceeds the number of classes, so the chain is
complete. -/
def ancestorsFuel : Nat → PyClass → List PyClass
  | 0, _ => []
  | n + 1, c =>
    match parent c with
    | none => []
    | some p => p :: ancestorsFuel n p

/-- All strict ancestors (proper base classes) of a class. -/
def strictAncestors (c : PyClass) : List PyClass :=
  ancestorsFuel 30 c

/-- Python `issubclass`: reflexive-transitive closure of the parent
relation. -/
def isSubclassOf (c d : PyClass) : Bool :=
  c = d || d ∈ strictAncestors c

/-- Strict (proper) subclass relation. -/
def isStrictSubclassOf (c d : PyClass) : Bool :=
  d ∈ strictAncestors c

end PyClass

/-- Every class the module `custom_exceptions.py` defines, in source
order. -/
def definedClasses : List PyClass :=
  [.GameError, .DataError, .CharacterError, .CombatError, .QuestError,
   .InventoryError, .InvalidDataFormatError, .MissingDataFileError,
   .CorruptedDataError, .InvalidCharacterClassError,
   .CharacterNotFoundError, .CharacterDeadError, .InsufficientLevelError,
   .InvalidTargetError, .CombatNotActiveError, .AbilityOnCooldownError,
   .QuestNotFoundError, .QuestRequirementsNotMetError,
   .QuestAlreadyCompletedError, .QuestNotActiveError, .InventoryFullError,
   .ItemNotFoundError, .InsufficientResourcesError, .InvalidItemTypeError,
   .SaveFileCorruptedError, .InvalidSaveDataError]

/-- The classes of the module that are category bases in the code:
direct subclasses of `GameError` that themselves have subclasses.  The
code defines five of these; it has no save-category base. -/
def categoryBases : List PyClass :=
  [.DataError, .CharacterError, .CombatError, .QuestError, .InventoryError]

/-- The specific (leaf) error kinds the module defines. -/
def specificKinds : List PyClass :=
  [.InvalidDataFormatError, .MissingDataFileError, .CorruptedDataError,
   .InvalidCharacterClassError, .CharacterNotFoundError,
   .CharacterDeadError, .InsufficientLevelError, .InvalidTargetError,
   .CombatNotActiveError, .AbilityOnCooldownError, .QuestNotFoundError,
   .QuestRequirementsNotMetError, .QuestAlreadyCompletedError,
   .QuestNotActiveError, .InventoryFullError, .ItemNotFoundError,
   .InsufficientResourcesError, .InvalidItemTypeError,
   .SaveFileCorruptedError, .InvalidSaveDataError]

/-- The nineteen error kinds enumerated in section 7 of the spec
(invalid-class, character-not-found, character-dead, insufficient-level,
invalid-target, combat-not-active, quest-not-found,
quest-requirements-not-met, quest-already-completed, quest-not-active,
inventory-full, item-not-found, insufficient-resources,
invalid-item-type, missing-data-file, invalid-data-format,
corrupted-data, save-file-corrupted, invalid-save-data), each mapped to
the class of the same meaning. -/
def specEnumeratedKinds : List PyClass :=
  [.InvalidCharacterClassError, .CharacterNotFoundError,
   .CharacterDeadError, .InsufficientLevelError, .InvalidTargetError,
   .CombatNotActiveError, .QuestNotFoundError,
   .QuestRequirementsNotMetError, .QuestAlreadyCompletedError,
   .QuestNotActiveError, .InventoryFullError, .ItemNotFoundError,
   .InsufficientResourcesError, .InvalidItemTypeError,
   .MissingDataFileError, .InvalidDataFormatError, .CorruptedDataError,
   .SaveFileCorruptedError, .InvalidSaveDataError]

/-! ## Game rules engine, modelled from the spec

The modules `character_manager`, `inventory_system`, `quest_handler` and
`combat_system` are exercised by the repository only through its tests,
so the operations below are modelled from the specification (sections 3
and 4), with the tests fixing observable details (class names, the 100 ×
level threshold, integer-floor sale price, the `NONE` prerequisite
sentinel). -/

/-- Error kinds an operation can signal, one per precondition of the
enumeration in the spec that the modelled operations use. -/
inductive GameErr where
  | invalidCharacterClass
  | characterNotFound
  | characterDead
  | insufficientLevel
  | invalidTarget
  | combatNotActive
  | questNotFound
  | questRequirementsNotMet
  | questAlreadyCompleted
  | questNotActive
  | inventoryFull
  | itemNotFound
  | insufficientResources
  | invalidItemType
deriving DecidableEq

/-- Modelled from the spec (section 3, Character): identity, progression,
vitals, combat stat, economy, collections and equipment slots.  The two
quest collections are sets of identifiers, represented as duplicate-free
lists.  `weapon_bonus` / `armor_bonus` record the magnitude of the bonus
currently applied by the equipped item, which the re-equip rule of the spec
(the net effect must not double-apply) requires the state to remember. -/
structure Character where
  name : String
  className : String
  level : Nat
  experience : Nat
  health : Nat
  max_health : Nat
  strength : Nat
  gold : Int
  inventory : List String
  active_quests : List String
  completed_quests : List String
  equipped_weapon : Option String
  equipped_armor : Option String
  weapon_bonus : Nat
  armor_bonus : Nat
deriving DecidableEq

/-- Modelled from the spec (section 3, Quest Definition); `prerequisite`
uses the `NONE` sentinel of the source, as in the tests. -/
structure QuestDef where
  quest_id : String
  title : String
  description : String
  reward_xp : Nat
  reward_gold : Nat
  required_level : Nat
  prerequisite : String
deriving DecidableEq

/-- Item categories of the Item Definition of the spec. -/
inductive ItemType where
  | weapon
  | armor
  | consumable
deriving DecidableEq

/-- Modelled from the spec (section 3, Item Definition); the effect
encoding `stat:magnitude` is kept as a structured pair, as section 9
prescribes. -/
structure ItemDef where
  item_id : String
  name : String
  type : ItemType
  effectStat : String
  effectMagnitude : Nat
  cost : Nat
  description : String
deriving DecidableEq

/-- Modelled from the spec (section 3, Enemy). -/
structure Enemy where
  name : String
  health : Nat
  max_health : Nat
  attack : Nat
  xp_reward : Nat
  gold_reward : Nat
deriving DecidableEq

/-- Modelled from the spec (section 3, Battle): one character, one enemy
and the `combat_active` flag. -/
structure Battle where
  character : Character
  enemy : Enemy
  combat_active : Bool
deriving DecidableEq

/-- Modelled from the spec: inventory capacity bound
(`MAX_INVENTORY_SIZE` of `inventory_system`); the value is the fixed
module constant. -/
def MAX_INVENTORY_SIZE : Nat := 10

/-! ### Character Model -/

/-- Modelled from the spec: class-specific base health, strength and
gold for the supported classes, `none` for an unsupported class. -/
def classBase (cls : String) : Option (Nat × Nat × Int) :=
  if cls = "Warrior" then some (120, 15, 50)
  else if cls = "Mage" then some (80, 10, 60)
  else if cls = "Rogue" then some (90, 12, 70)
  else if cls = "Cleric" then some (100, 8, 55)
  else none

/-- Modelled from the spec (section 4.1, `create`): signals
invalid-class for an unsupported class, otherwise a level-1 character at
full health with empty collections. -/
def create_character (name cls : String) : Except GameErr Character :=
  match classBase cls with
  | none => .error .invalidCharacterClass
  | some (hp, st, g) =>
    .ok { name := name, className := cls, level := 1, experience := 0,
          health := hp, max_health := hp, strength := st, gold := g,
          inventory := [], active_quests := [], completed_quests := [],
          equipped_weapon := none, equipped_armor := none,
          weapon_bonus := 0, armor_bonus := 0 }

/-- Modelled from the spec (section 4.1, `gain_experience` loop): while
experience is at least the level-up threshold (100 × level), increment
the level, subtract the threshold, grow max health by the fixed
per-level amount and restore health to the new max health.  The `1 ≤
lvl` guard makes the recursion terminate; characters always have level
at least 1, so it never changes the computed value. -/
def levelLoop (lvl xp maxh hp : Nat) : Nat × Nat × Nat × Nat :=
  if h : 1 ≤ lvl ∧ 100 * lvl ≤ xp then
    levelLoop (lvl + 1) (xp - 100 * lvl) (maxh + 20) (maxh + 20)
  else
    (lvl, xp, maxh, hp)
termination_by xp
decreasing_by omega

/-- Modelled from the spec (section 4.1, `gain_experience`): signals
character-dead when health is 0; otherwise adds the amount to
experience and runs the level-up loop. -/
def gain_experience (c : Character) (amount : Nat) :
    Except GameErr Character :=
  if c.health = 0 then .error .characterDead
  else
    let r := levelLoop c.level (c.experience + amount) c.max_health c.health
    .ok { c with level := r.1, experience := r.2.1,
                 max_health := r.2.2.1, health := r.2.2.2 }

/-- Modelled from the spec (section 4.1, `add_gold`): the delta may be
negative; signals insufficient-resources (the ValueError-equivalent of
the tests) when the resulting gold would be negative, before any
mutation. -/
def add_gold (c : Character) (delta : Int) : Except GameErr Character :=
  if c.gold + delta < 0 then .error .insufficientResources
  else .ok { c with gold := c.gold + delta }

/-- Modelled from the spec (section 4.1, `heal_character`): clamps the
resulting health to max health. -/
def heal_character (c : Character) (amount : Nat) : Character :=
  { c with health := min (c.health + amount) c.max_health }

/-- The store of the persistence collaborator, keyed by character name; the
most recent record for a name shadows older ones. -/
abbrev SaveStore : Type := List (String × Character)

/-- Modelled from the spec (section 4.1 / 6, `save`): stores the
record of the character under its name.  Records in this model are well-typed
characters, so the structural validation of the collaborator always
passes. -/
def save_character (s : SaveStore) (c : Character) : SaveStore :=
  (c.name, c) :: s

/-- Modelled from the spec (section 4.1 / 6, `load`): returns the record
stored under the name, signalling character-not-found when no record
exists. -/
def load_character (s : SaveStore) (name : String) :
    Except GameErr Character :=
  match s.lookup name with
  | some c => .ok c
  | none => .error .characterNotFound

/-- Modelled from the spec (section 4.1 / 6, `delete`): drops every
record stored under the name. -/
def delete_character (s : SaveStore) (name : String) : SaveStore :=
  s.filter (fun kv => kv.1 != name)

/-! ### Inventory and Economy -/

/-- Modelled from the spec (section 4.2, `add_item`): signals
inventory-full when the inventory is at capacity, otherwise appends. -/
def add_item_to_inventory (c : Character) (iid : String) :
    Except GameErr Character :=
  if MAX_INVENTORY_SIZE ≤ c.inventory.length then .error .inventoryFull
  else .ok { c with inventory := c.inventory ++ [iid] }

/-- Modelled from the spec (section 4.2, `remove_item`): signals
item-not-found when absent, otherwise removes the first occurrence. -/
def remove_item_from_inventory (c : Character) (iid : String) :
    Except GameErr Character :=
  if iid ∈ c.inventory then .ok { c with inventory := c.inventory.erase iid }
  else .error .itemNotFound

/-- Modelled from the spec (sections 4.2 and 9): applies a structured
effect pair to the named character stat; a health effect is clamped to
max health. -/
def applyEffect (c : Character) (stat : String) (mag : Nat) : Character :=
  if stat = "health" then
    { c with health := min (c.health + mag) c.max_health }
  else if stat = "strength" then
    { c with strength := c.strength + mag }
  else c

/-- Modelled from the spec (section 4.2, `use_item`): only consumables
may be used (invalid-item-type otherwise); on success the encoded effect
is applied and the item is consumed (first occurrence removed). -/
def use_item (c : Character) (iid : String) (idef : ItemDef) :
    Except GameErr Character :=
  if iid ∉ c.inventory then .error .itemNotFound
  else if idef.type ≠ .consumable then .error .invalidItemType
  else
    .ok { applyEffect c idef.effectStat idef.effectMagnitude with
          inventory := c.inventory.erase iid }

/-- Modelled from the spec (section 4.2, `equip_weapon`): the item type
must be weapon; the encoded bonus is added to strength after the bonus
of any previously equipped weapon is removed, and the item id is
recorded in the slot. -/
def equip_weapon (c : Character) (iid : String) (idef : ItemDef) :
    Except GameErr Character :=
  if idef.type ≠ .weapon then .error .invalidItemType
  else
    .ok { c with
          strength := c.strength - c.weapon_bonus + idef.effectMagnitude,
          weapon_bonus := idef.effectMagnitude,
          equipped_weapon := some iid }

/-- Modelled from the spec (section 4.2, `equip_armor`): the item type
must be armor; the encoded bonus is added to max health after the bonus
of any previously equipped armor is removed, health is clamped to the
new max health, and the item id is recorded in the slot. -/
def equip_armor (c : Character) (iid : String) (idef : ItemDef) :
    Except GameErr Character :=
  if idef.type ≠ .armor then .error .invalidItemType
  else
    let newMax := c.max_health - c.armor_bonus + idef.effectMagnitude
    .ok { c with
          max_health := newMax,
          health := min c.health newMax,
          armor_bonus := idef.effectMagnitude,
          equipped_armor := some iid }

/-- Modelled from the spec (section 4.2, `purchase_item`): signals
insufficient-resources when gold is below the cost; adding the item
observes the inventory capacity, so a full inventory signals
inventory-full before any mutation; otherwise the cost is deducted and
the item appended. -/
def purchase_item (c : Character) (iid : String) (idef : ItemDef) :
    Except GameErr Character :=
  if c.gold < (idef.cost : Int) then .error .insufficientResources
  else if MAX_INVENTORY_SIZE ≤ c.inventory.length then .error .inventoryFull
  else
    .ok { c with gold := c.gold - (idef.cost : Int),
                 inventory := c.inventory ++ [iid] }

/-- Modelled from the spec (section 4.2, `sell_item`): signals
item-not-found when absent; otherwise removes the first occurrence,
credits integer-floor of half the cost, and returns the credited amount
alongside the updated character. -/
def sell_item (c : Character) (iid : String) (idef : ItemDef) :
    Except GameErr (Character × Nat) :=
  if iid ∈ c.inventory then
    .ok ({ c with inventory := c.inventory.erase iid,
                  gold := c.gold + (idef.cost / 2 : Nat) },
         idef.cost / 2)
  else .error .itemNotFound

/-! ### Quest State Machine -/

/-- Modelled from the spec (section 4.3, `accept_quest`): signals
quest-not-found when absent from the definitions, quest-already-completed
when already completed, insufficient-level below the required level, and
quest-requirements-not-met when a prerequisite (other than the `NONE`
sentinel) is not completed; on success the quest becomes active. -/
def accept_quest (c : Character) (qid : String)
    (defs : List (String × QuestDef)) : Except GameErr Character :=
  match defs.lookup qid with
  | none => .error .questNotFound
  | some q =>
    if qid ∈ c.completed_quests then .error .questAlreadyCompleted
    else if c.level < q.required_level then .error .insufficientLevel
    else if q.prerequisite ≠ "NONE" ∧ q.prerequisite ∉ c.completed_quests then
      .error .questRequirementsNotMet
    else .ok { c with active_quests := c.active_quests.insert qid }

/-- Modelled from the spec (section 4.3, `complete_quest`): the
quest-not-active check is by membership in `active_quests` alone, before
any definition lookup; on success the quest moves from active to
completed and the rewards are granted through `gain_experience` and
`add_gold`.  `quest_move` is the active-to-completed move. -/
def quest_move (c : Character) (qid : String) : Character :=
  { c with active_quests := c.active_quests.erase qid,
           completed_quests := c.completed_quests.insert qid }

def complete_quest (c : Character) (qid : String)
    (defs : List (String × QuestDef)) : Except GameErr Character :=
  if qid ∈ c.active_quests then
    match defs.lookup qid with
    | none => .error .questNotFound
    | some q =>
      match gain_experience (quest_move c qid) q.reward_xp with
      | .error e => .error e
      | .ok c2 => add_gold c2 (q.reward_gold : Int)
  else .error .questNotActive

/-- Modelled from the spec (section 4.3, `abandon_quest`): removes the
quest from the active set when present; idempotent no-op otherwise. -/
def abandon_quest (c : Character) (qid : String) : Character :=
  { c with active_quests := c.active_quests.erase qid }

/-! ### Combat Engine -/

/-- Modelled from the spec (section 4.4, `create_enemy`): a fixed
template table keyed by type name; unrecognized types signal
invalid-target. -/
def create_enemy (etype : String) : Except GameErr Enemy :=
  if etype = "goblin" then
    .ok { name := "Goblin", health := 30, max_health := 30, attack := 5,
          xp_reward := 25, gold_reward := 10 }
  else if etype = "orc" then
    .ok { name := "Orc", health := 50, max_health := 50, attack := 8,
          xp_reward := 50, gold_reward := 20 }
  else if etype = "dragon" then
    .ok { name := "Dragon", health := 100, max_health := 100, attack := 15,
          xp_reward := 200, gold_reward := 100 }
  else .error .invalidTarget

/-- Modelled from the spec (section 4.4): battle construction sets
`combat_active` to true. -/
def start_battle (c : Character) (e : Enemy) : Battle :=
  { character := c, enemy := e, combat_active := true }

/-- Modelled from the spec (section 4.4, `player_turn`): signals
combat-not-active when the flag is false; otherwise enemy health
drops by the strength-derived damage of the character, floored at 0, and the
battle resolves (flag false) when it reaches 0. -/
def player_turn (b : Battle) : Except GameErr Battle :=
  if b.combat_active = false then .error .combatNotActive
  else
    let newH := b.enemy.health - b.character.strength
    .ok { b with enemy := { b.enemy with health := newH },
                 combat_active := if newH = 0 then false else b.combat_active }

/-- Modelled from the spec (section 4.4, `enemy_turn`): symmetric to the
player turn, applying enemy attack power to character
health, floored at 0. -/
def enemy_turn (b : Battle) : Except GameErr Battle :=
  if b.combat_active = false then .error .combatNotActive
  else
    let newH := b.character.health - b.enemy.attack
    .ok { b with character := { b.character with health := newH },
                 combat_active := if newH = 0 then false else b.combat_active }

/-- Modelled from the spec (section 4.4, `get_victory_rewards`): a pure
function of the enemy, returning its xp and gold rewards. -/
def get_victory_rewards (e : Enemy) : Nat × Nat :=
  (e.xp_reward, e.gold_reward)

/-! ### Derived quantities and invariants -/

/-- Cumulative experience a character has ever been granted: the
experience spent reaching the current level from level 1 (the thresholds
100 × 1, …, 100 × (level − 1) sum to 50 × level × (level − 1)) plus the
current experience.  `gain_experience` adds exactly its amount to this
quantity. -/
def xpValue (c : Character) : Nat :=
  50 * c.level * (c.level - 1) + c.experience

/-- The character invariants of the spec (section 3): health within
[0, max_health], gold never negative, quest disjointness (a quest id is
in at most one of the active and completed sets), and the inventory
within capacity.  The two quest collections are sets, so their list
representations are duplicate-free. -/
def CharInv (c : Character) : Prop :=
  c.health ≤ c.max_health ∧
  0 ≤ c.gold ∧
  (∀ q ∈ c.active_quests, q ∉ c.completed_quests) ∧
  c.inventory.length ≤ MAX_INVENTORY_SIZE ∧
  c.active_quests.Nodup ∧
  c.completed_quests.Nodup

instance (c : Character) : Decidable (CharInv c) := by
  unfold CharInv
  infer_instance

/-! ### Concrete sample data, used to instantiate the theorems -/

/-- A concrete warrior mid-game: some experience, damaged, one potion,
one active quest. -/
def sampleChar : Character :=
  { name := "Hero", className := "Warrior", level := 1, experience := 40,
    health := 30, max_health := 120, strength := 15, gold := 100,
    inventory := ["health_potion"], active_quests := ["q1"],
    completed_quests := [], equipped_weapon := none, equipped_armor := none,
    weapon_bonus := 0, armor_bonus := 0 }

/-- A concrete quest definition matching the shape used in the integration test. -/
def sampleQuest : QuestDef :=
  { quest_id := "q1", title := "First Steps", description := "Begin",
    reward_xp := 50, reward_gold := 25, required_level := 1,
    prerequisite := "NONE" }

/-- A one-quest definition table. -/
def sampleDefs : List (String × QuestDef) := [("q1", sampleQuest)]

/-- A consumable costing 25 gold, the item of the shop test. -/
def samplePotion : ItemDef :=
  { item_id := "health_potion", name := "Health Potion",
    type := .consumable, effectStat := "health", effectMagnitude := 20,
    cost := 25, description := "Restores health" }

/-- A weapon granting strength 5. -/
def sampleSword : ItemDef :=
  { item_id := "iron_sword", name := "Iron Sword", type := .weapon,
    effectStat := "strength", effectMagnitude := 5, cost := 50,
    description := "A sword" }

/-- A second weapon with a different bonus. -/
def sampleAxe : ItemDef :=
  { item_id := "steel_axe", name := "Steel Axe", type := .weapon,
    effectStat := "strength", effectMagnitude := 9, cost := 80,
    description := "An axe" }

/-- An armor piece granting max health 10. -/
def sampleLeather : ItemDef :=
  { item_id := "leather_armor", name := "Leather Armor", type := .armor,
    effectStat := "health", effectMagnitude := 10, cost := 40,
    description := "Light armor" }

/-- A second armor piece with a different bonus. -/
def samplePlate : ItemDef :=
  { item_id := "plate_armor", name := "Plate Armor", type := .armor,
    effectStat := "health", effectMagnitude := 25, cost := 120,
    description := "Heavy armor" }

/-- The enemy of the goblin template. -/
def sampleEnemy : Enemy :=
  { name := "Goblin", health := 30, max_health := 30, attack := 5,
    xp_reward := 25, gold_reward := 10 }

/-- A freshly started battle (active). -/
def sampleBattle : Battle := start_battle sampleChar sampleEnemy

/-- The same battle with combat manually deactivated, as in the
exception test. -/
def sampleBattleInactive : Battle :=
  { sampleBattle with combat_active := false }

/-! ### Lemmas about the level-up loop -/

theorem levelLoop_stop (lvl xp maxh hp : Nat)
    (h : ¬ (1 ≤ lvl ∧ 100 * lvl ≤ xp)) :
    levelLoop lvl xp maxh hp = (lvl, xp, maxh, hp) := by
  rw [levelLoop]
  simp [h]

theorem levelLoop_step (lvl xp maxh hp : Nat)
    (h1 : 1 ≤ lvl) (h2 : 100 * lvl ≤ xp) :
    levelLoop lvl xp maxh hp =
      levelLoop (lvl + 1) (xp - 100 * lvl) (maxh + 20) (maxh + 20) := by
  rw [levelLoop]
  simp [h1, h2]

/-- The loop keeps health within max health. -/
theorem levelLoop_hp_le (lvl xp maxh hp : Nat) (h : hp ≤ maxh) :
    (levelLoop lvl xp maxh hp).2.2.2 ≤ (levelLoop lvl xp maxh hp).2.2.1 := by
  induction lvl, xp, maxh, hp using levelLoop.induct with
  | case1 lvl xp maxh hp hc ih =>
    rw [levelLoop_step _ _ _ _ hc.1 hc.2]
    exact ih (le_refl _)
  | case2 lvl xp maxh hp hc =>
    rw [levelLoop_stop _ _ _ _ hc]
    exact h

/-- On exit the remaining experience is below the threshold of the current
level. -/
theorem levelLoop_xp_lt (lvl xp maxh hp : Nat) (h : 1 ≤ lvl) :
    (levelLoop lvl xp maxh hp).2.1 < 100 * (levelLoop lvl xp maxh hp).1 := by
  induction lvl, xp, maxh, hp using levelLoop.induct with
  | case1 lvl xp maxh hp hc ih =>
    rw [levelLoop_step _ _ _ _ hc.1 hc.2]
    exact ih (by omega)
  | case2 lvl xp maxh hp hc =>
    rw [levelLoop_stop _ _ _ _ hc]
    dsimp only
    omega

/-- The loop conserves cumulative experience: threshold experience
converted into a level is accounted for by the triangular sum
50 × level × (level − 1). -/
theorem levelLoop_xpValue (lvl xp maxh hp : Nat) (h : 1 ≤ lvl) :
    50 * (levelLoop lvl xp maxh hp).1 * ((levelLoop lvl xp maxh hp).1 - 1)
      + (levelLoop lvl xp maxh hp).2.1 = 50 * lvl * (lvl - 1) + xp := by
  induction lvl, xp, maxh, hp using levelLoop.induct with
  | case1 lvl xp maxh hp hc ih =>
    rw [levelLoop_step _ _ _ _ hc.1 hc.2]
    rw [ih (by omega)]
    obtain ⟨m, rfl⟩ : ∃ m, lvl = m + 1 := ⟨lvl - 1, by omega⟩
    have hx := hc.2
    simp only [Nat.add_sub_cancel]
    ring_nf
    omega
  | case2 lvl xp maxh hp hc =>
    rw [levelLoop_stop _ _ _ _ hc]

/-- The loop never decreases the level or the max health. -/
theorem levelLoop_mono (lvl xp maxh hp : Nat) :
    lvl ≤ (levelLoop lvl xp maxh hp).1 ∧
      maxh ≤ (levelLoop lvl xp maxh hp).2.2.1 := by
  induction lvl, xp, maxh, hp using levelLoop.induct with
  | case1 lvl xp maxh hp hc ih =>
    rw [levelLoop_step _ _ _ _ hc.1 hc.2]
    exact ⟨le_trans (by omega) ih.1, le_trans (by omega) ih.2⟩
  | case2 lvl xp maxh hp hc =>
    rw [levelLoop_stop _ _ _ _ hc]
    exact ⟨le_refl _, le_refl _⟩

/-! ### Lemmas about the character model operations -/

/-- A living character always gains experience successfully, cumulative
experience grows by exactly the amount gained, the residual experience
stays below the current threshold, and no field outside the progression
and vitals is touched. -/
theorem gain_experience_props (c : Character) (amount : Nat)
    (halive : c.health ≠ 0) (hlvl : 1 ≤ c.level) :
    ∃ c', gain_experience c amount = .ok c' ∧
      xpValue c' = xpValue c + amount ∧
      c'.experience < 100 * c'.level ∧
      1 ≤ c'.level ∧
      (c.health ≤ c.max_health → c'.health ≤ c'.max_health) ∧
      c'.gold = c.gold ∧ c'.inventory = c.inventory ∧
      c'.active_quests = c.active_quests ∧
      c'.completed_quests = c.completed_quests := by
  refine ⟨{ c with
      level := (levelLoop c.level (c.experience + amount) c.max_health c.health).1,
      experience := (levelLoop c.level (c.experience + amount) c.max_health c.health).2.1,
      max_health := (levelLoop c.level (c.experience + amount) c.max_health c.health).2.2.1,
      health := (levelLoop c.level (c.experience + amount) c.max_health c.health).2.2.2 },
    ?_, ?_, ?_, ?_, ?_, rfl, rfl, rfl, rfl⟩
  · unfold gain_experience
    rw [if_neg halive]
  · show 50 * (levelLoop c.level (c.experience + amount) c.max_health c.health).1
        * ((levelLoop c.level (c.experience + amount) c.max_health c.health).1 - 1)
        + (levelLoop c.level (c.experience + amount) c.max_health c.health).2.1
        = xpValue c + amount
    rw [levelLoop_xpValue _ _ _ _ hlvl]
    unfold xpValue
    rw [Nat.add_assoc]
  · exact levelLoop_xp_lt _ _ _ _ hlvl
  · exact le_trans hlvl (levelLoop_mono _ _ _ _).1
  · exact fun h => levelLoop_hp_le _ _ _ _ h

/-- Gaining experience preserves the character invariants. -/
theorem gain_experience_inv (c : Character) (amount : Nat)
    (hinv : CharInv c) (c' : Character)
    (h : gain_experience c amount = .ok c') : CharInv c' := by
  unfold gain_experience at h
  split at h
  · exact absurd h (by simp)
  · obtain ⟨h1, h2, h3, h4, h5, h6⟩ := hinv
    simp only [Except.ok.injEq] at h
    subst h
    exact ⟨levelLoop_hp_le _ _ _ _ h1, h2, h3, h4, h5, h6⟩

/-- Adding a non-negative delta to a character with non-negative gold
always succeeds. -/
theorem add_gold_nonneg_ok (c : Character) (d : Nat) (hg : 0 ≤ c.gold) :
    add_gold c (d : Int) = .ok { c with gold := c.gold + (d : Int) } := by
  unfold add_gold
  rw [if_neg (by omega)]

/-- Adjusting gold preserves the character invariants. -/
theorem add_gold_inv (c : Character) (delta : Int) (hinv : CharInv c)
    (c' : Character) (h : add_gold c delta = .ok c') : CharInv c' := by
  unfold add_gold at h
  split at h
  · exact absurd h (by simp)
  · rename_i hcond
    obtain ⟨h1, h2, h3, h4, h5, h6⟩ := hinv
    simp only [Except.ok.injEq] at h
    subst h
    refine ⟨h1, ?_, h3, h4, h5, h6⟩
    show (0 : Int) ≤ c.gold + delta
    omega

/-- Character creation establishes the character invariants. -/
theorem create_character_inv (name cls : String) (c' : Character)
    (h : create_character name cls = .ok c') : CharInv c' := by
  unfold create_character at h
  cases hcb : classBase cls with
  | none =>
    rw [hcb] at h
    exact absurd h (by simp)
  | some v =>
    obtain ⟨hp, st, g⟩ := v
    rw [hcb] at h
    simp only [Except.ok.injEq] at h
    subst h
    have hg : 0 ≤ g := by
      unfold classBase at hcb
      split_ifs at hcb <;> simp only [Option.some.injEq, Prod.mk.injEq] at hcb <;> omega
    exact ⟨le_refl _, hg, by simp, by simp, List.nodup_nil, List.nodup_nil⟩

/-- Healing preserves the character invariants. -/
theorem heal_character_inv (c : Character) (amount : Nat)
    (hinv : CharInv c) : CharInv (heal_character c amount) := by
  obtain ⟨h1, h2, h3, h4, h5, h6⟩ := hinv
  exact ⟨min_le_right _ _, h2, h3, h4, h5, h6⟩

/-- Adding an item preserves the character invariants. -/
theorem add_item_inv (c : Character) (iid : String) (c' : Character)
    (hinv : CharInv c) (h : add_item_to_inventory c iid = .ok c') :
    CharInv c' := by
  unfold add_item_to_inventory at h
  split at h
  · exact absurd h (by simp)
  · rename_i hcond
    obtain ⟨h1, h2, h3, h4, h5, h6⟩ := hinv
    simp only [Except.ok.injEq] at h
    subst h
    refine ⟨h1, h2, h3, ?_, h5, h6⟩
    show (c.inventory ++ [iid]).length ≤ MAX_INVENTORY_SIZE
    simp only [List.length_append, List.length_singleton]
    omega

/-- Removing an item preserves the character invariants. -/
theorem remove_item_inv (c : Character) (iid : String) (c' : Character)
    (hinv : CharInv c) (h : remove_item_from_inventory c iid = .ok c') :
    CharInv c' := by
  unfold remove_item_from_inventory at h
  split at h
  · obtain ⟨h1, h2, h3, h4, h5, h6⟩ := hinv
    simp only [Except.ok.injEq] at h
    subst h
    refine ⟨h1, h2, h3, ?_, h5, h6⟩
    show (c.inventory.erase iid).length ≤ MAX_INVENTORY_SIZE
    exact le_trans (List.Sublist.length_le (List.erase_sublist _ _)) h4
  · exact absurd h (by simp)

/-- Applying an item effect preserves every invariant component and
leaves the collections untouched. -/
theorem applyEffect_inv (c : Character) (stat : String) (mag : Nat)
    (hinv : CharInv c) :
    CharInv (applyEffect c stat mag) ∧
      (applyEffect c stat mag).inventory = c.inventory := by
  obtain ⟨h1, h2, h3, h4, h5, h6⟩ := hinv
  unfold applyEffect
  split_ifs with hs1 hs2
  · exact ⟨⟨min_le_right _ _, h2, h3, h4, h5, h6⟩, rfl⟩
  · exact ⟨⟨h1, h2, h3, h4, h5, h6⟩, rfl⟩
  · exact ⟨⟨h1, h2, h3, h4, h5, h6⟩, rfl⟩

/-- Using a consumable preserves the character invariants. -/
theorem use_item_inv (c : Character) (iid : String) (idef : ItemDef)
    (c' : Character) (hinv : CharInv c)
    (h : use_item c iid idef = .ok c') : CharInv c' := by
  unfold use_item at h
  split at h
  · exact absurd h (by simp)
  · split at h
    · exact absurd h (by simp)
    · simp only [Except.ok.injEq] at h
      subst h
      obtain ⟨⟨h1, h2, h3, h4, h5, h6⟩, hi⟩ :=
        applyEffect_inv c idef.effectStat idef.effectMagnitude hinv
      refine ⟨h1, h2, h3, ?_, h5, h6⟩
      show (c.inventory.erase iid).length ≤ MAX_INVENTORY_SIZE
      exact le_trans (List.Sublist.length_le (List.erase_sublist _ _)) hinv.2.2.2.1

/-- Equipping a weapon preserves the character invariants. -/
theorem equip_weapon_inv (c : Character) (iid : String) (idef : ItemDef)
    (c' : Character) (hinv : CharInv c)
    (h : equip_weapon c iid idef = .ok c') : CharInv c' := by
  unfold equip_weapon at h
  split at h
  · exact absurd h (by simp)
  · obtain ⟨h1, h2, h3, h4, h5, h6⟩ := hinv
    simp only [Except.ok.injEq] at h
    subst h
    exact ⟨h1, h2, h3, h4, h5, h6⟩

/-- Equipping armor preserves the character invariants. -/
theorem equip_armor_inv (c : Character) (iid : String) (idef : ItemDef)
    (c' : Character) (hinv : CharInv c)
    (h : equip_armor c iid idef = .ok c') : CharInv c' := by
  unfold equip_armor at h
  split at h
  · exact absurd h (by simp)
  · obtain ⟨h1, h2, h3, h4, h5, h6⟩ := hinv
    simp only [Except.ok.injEq] at h
    subst h
    exact ⟨min_le_right _ _, h2, h3, h4, h5, h6⟩

/-- Purchasing an item preserves the character invariants. -/
theorem purchase_item_inv (c : Character) (iid : String) (idef : ItemDef)
    (c' : Character) (hinv : CharInv c)
    (h : purchase_item c iid idef = .ok c') : CharInv c' := by
  unfold purchase_item at h
  split at h
  · exact absurd h (by simp)
  · split at h
    · exact absurd h (by simp)
    · rename_i hgold hfull
      obtain ⟨h1, h2, h3, h4, h5, h6⟩ := hinv
      simp only [Except.ok.injEq] at h
      subst h
      refine ⟨h1, ?_, h3, ?_, h5, h6⟩
      · show (0 : Int) ≤ c.gold - (idef.cost : Int)
        omega
      · show (c.inventory ++ [iid]).length ≤ MAX_INVENTORY_SIZE
        simp only [List.length_append, List.length_singleton]
        omega

/-- Selling an item preserves the character invariants. -/
theorem sell_item_inv (c : Character) (iid : String) (idef : ItemDef)
    (r : Character × Nat) (hinv : CharInv c)
    (h : sell_item c iid idef = .ok r) : CharInv r.1 := by
  unfold sell_item at h
  split at h
  · obtain ⟨h1, h2, h3, h4, h5, h6⟩ := hinv
    simp only [Except.ok.injEq] at h
    subst h
    refine ⟨h1, ?_, h3, ?_, h5, h6⟩
    · show (0 : Int) ≤ c.gold + ((idef.cost / 2 : Nat) : Int)
      omega
    · show (c.inventory.erase iid).length ≤ MAX_INVENTORY_SIZE
      exact le_trans (List.Sublist.length_le (List.erase_sublist _ _)) h4
  · exact absurd h (by simp)

/-- Accepting a quest preserves the character invariants. -/
theorem accept_quest_inv (c : Character) (qid : String)
    (defs : List (String × QuestDef)) (c' : Character) (hinv : CharInv c)
    (h : accept_quest c qid defs = .ok c') : CharInv c' := by
  unfold accept_quest at h
  split at h
  · exact absurd h (by simp)
  · split at h
    · exact absurd h (by simp)
    · split at h
      · exact absurd h (by simp)
      · split at h
        · exact absurd h (by simp)
        · rename_i q hdone hlvl hpre
          obtain ⟨h1, h2, h3, h4, h5, h6⟩ := hinv
          simp only [Except.ok.injEq] at h
          subst h
          refine ⟨h1, h2, ?_, h4, ?_, h6⟩
          · show ∀ p ∈ c.active_quests.insert qid, p ∉ c.completed_quests
            intro p hp
            rcases List.mem_insert_iff.mp hp with hpq | hpa
            · subst hpq
              exact hdone
            · exact h3 p hpa
          · show (c.active_quests.insert qid).Nodup
            exact h5.insert

/-- The active-to-completed move of `complete_quest` preserves the
character invariants. -/
theorem quest_move_inv (c : Character) (qid : String) (hinv : CharInv c) :
    CharInv (quest_move c qid) := by
  unfold quest_move
  obtain ⟨h1, h2, h3, h4, h5, h6⟩ := hinv
  refine ⟨h1, h2, ?_, h4, ?_, ?_⟩
  · show ∀ p ∈ c.active_quests.erase qid, p ∉ c.completed_quests.insert qid
    intro p hp hmem
    have hpq : p ≠ qid ∧ p ∈ c.active_quests := (h5.mem_erase_iff).mp hp
    rcases List.mem_insert_iff.mp hmem with hq | hc
    · exact hpq.1 hq
    · exact h3 p hpq.2 hc
  · show (c.active_quests.erase qid).Nodup
    exact h5.erase qid
  · show (c.completed_quests.insert qid).Nodup
    exact h6.insert

/-- Completing a quest preserves the character invariants. -/
theorem complete_quest_inv (c : Character) (qid : String)
    (defs : List (String × QuestDef)) (c' : Character) (hinv : CharInv c)
    (h : complete_quest c qid defs = .ok c') : CharInv c' := by
  unfold complete_quest at h
  split at h
  · split at h
    · exact absurd h (by simp)
    · rename_i q hq
      cases hg : gain_experience (quest_move c qid) q.reward_xp with
      | error e =>
        rw [hg] at h
        exact absurd h (by simp)
      | ok c2 =>
        rw [hg] at h
        exact add_gold_inv c2 (q.reward_gold : Int)
          (gain_experience_inv _ q.reward_xp (quest_move_inv c qid hinv) c2 hg)
          c' h
  · exact absurd h (by simp)

/-- Abandoning a quest preserves the character invariants. -/
theorem abandon_quest_inv (c : Character) (qid : String)
    (hinv : CharInv c) : CharInv (abandon_quest c qid) := by
  obtain ⟨h1, h2, h3, h4, h5, h6⟩ := hinv
  refine ⟨h1, h2, ?_, h4, ?_, h6⟩
  · show ∀ p ∈ c.active_quests.erase qid, p ∉ c.completed_quests
    intro p hp
    exact h3 p (List.mem_of_mem_erase hp)
  · show (c.active_quests.erase qid).Nodup
    exact h5.erase qid

/-- The player combat turn preserves the character invariants. -/
theorem player_turn_inv (b : Battle) (b' : Battle)
    (hinv : CharInv b.character) (h : player_turn b = .ok b') :
    CharInv b'.character := by
  unfold player_turn at h
  split at h
  · exact absurd h (by simp)
  · simp only [Except.ok.injEq] at h
    subst h
    exact hinv

/-- The enemy combat turn preserves the character invariants. -/
theorem enemy_turn_inv (b : Battle) (b' : Battle)
    (hinv : CharInv b.character) (h : enemy_turn b = .ok b') :
    CharInv b'.character := by
  unfold enemy_turn at h
  split at h
  · exact absurd h (by simp)
  · obtain ⟨h1, h2, h3, h4, h5, h6⟩ := hinv
    simp only [Except.ok.injEq] at h
    subst h
    refine ⟨?_, h2, h3, h4, h5, h6⟩
    show b.character.health - b.enemy.attack ≤ b.character.max_health
    omega

/-- A successful association-list lookup returns a stored pair. -/
theorem lookup_mem {β : Type} {l : List (String × β)} {k : String} {v : β}
    (h : l.lookup k = some v) : (k, v) ∈ l := by
  induction l with
  | nil => simp [List.lookup] at h
  | cons kv t ih =>
    obtain ⟨k', b⟩ := kv
    rw [List.lookup] at h
    split at h
    · rename_i hbeq
      simp only [Option.some.injEq] at h
      subst h
      have : k = k' := by simpa using hbeq
      subst this
      exact List.mem_cons_self _ _
    · exact List.mem_cons_of_mem _ (ih h)

/-- Loading from a store whose records all satisfy the invariants
yields an invariant-satisfying character. -/
theorem load_character_inv (s : SaveStore)
    (hs : ∀ kv ∈ s, CharInv kv.2)
    (name : String) (c' : Character)
    (h : load_character s name = .ok c') : CharInv c' := by
  unfold load_character at h
  cases hl : s.lookup name with
  | none =>
    rw [hl] at h
    exact absurd h (by simp)
  | some c =>
    rw [hl] at h
    obtain rfl : c = c' := by simpa using h
    exact hs (name, c) (lookup_mem hl)

/-! ### Claim theorems -/

/-- C9 counterexample: the taxonomy is not the claimed six-category
two-level hierarchy.  `SaveFileCorruptedError` is a specific error kind
that is a subclass of none of the category bases the module defines
(there is no save-category base), and `AbilityOnCooldownError` is a
specific error kind of the module that is outside the enumeration of the spec
of nineteen kinds. -/
theorem c9_taxonomy_counterexample :
    PyClass.SaveFileCorruptedError ∈ specificKinds ∧
    (categoryBases.all fun b =>
      !(PyClass.SaveFileCorruptedError.isSubclassOf b)) = true ∧
    PyClass.AbilityOnCooldownError ∈ specificKinds ∧
    PyClass.AbilityOnCooldownError ∉ specEnumeratedKinds := by
  decide

/-- C9 (amended): the error taxonomy is a two-level hierarchy rooted at
`GameError` with five category bases (data, character, combat, quest,
inventory), each a direct subclass of `GameError`; every specific error
kind except `SaveFileCorruptedError` and `InvalidSaveDataError` — which
subclass `GameError` directly — is a subclass of exactly one category
base; and the specific kinds are the nineteen of the spec plus
`AbilityOnCooldownError`. -/
theorem c9_taxonomy_amended :
    (categoryBases.all fun b => PyClass.parent b == some .GameError) = true ∧
    (specificKinds.all fun k =>
      (k == .SaveFileCorruptedError || k == .InvalidSaveDataError) ||
        (categoryBases.countP fun b => k.isSubclassOf b) == 1) = true ∧
    PyClass.parent .SaveFileCorruptedError = some .GameError ∧
    PyClass.parent .InvalidSaveDataError = some .GameError ∧
    (specEnumeratedKinds.all fun k => k ∈ specificKinds) = true ∧
    specEnumeratedKinds.length = 19 ∧
    specificKinds.length = 20 ∧
    (specificKinds.all fun k =>
      k == .AbilityOnCooldownError || k ∈ specEnumeratedKinds) = true := by
  decide

/-- C10: every exception class the error-taxonomy module defines other
than the root itself is a strict subclass of `GameError` — including
`SaveFileCorruptedError` and `InvalidSaveDataError`, which subclass
`GameError` directly with no save-category base, and
`AbilityOnCooldownError`, a direct `CombatError` subclass — so every
class of the module is caught by a handler for `GameError`. -/
theorem c10_all_errors_under_GameError :
    (definedClasses.all fun k =>
      k == .GameError || k.isStrictSubclassOf .GameError) = true ∧
    (definedClasses.all fun k => k.isSubclassOf .GameError) = true ∧
    PyClass.parent .SaveFileCorruptedError = some .GameError ∧
    PyClass.parent .InvalidSaveDataError = some .GameError ∧
    PyClass.parent .AbilityOnCooldownError = some .CombatError := by
  decide

/-- C4: `add_gold` signals insufficient-resources and produces no
updated character (gold unchanged) exactly when the resulting gold would
be negative; otherwise it applies the delta, which may be negative. -/
theorem c4_add_gold_guard (c : Character) (delta : Int) :
    (c.gold + delta < 0 →
      add_gold c delta = .error .insufficientResources) ∧
    (0 ≤ c.gold + delta →
      add_gold c delta = .ok { c with gold := c.gold + delta }) := by
  constructor
  · intro h
    unfold add_gold
    rw [if_pos h]
  · intro h
    unfold add_gold
    rw [if_neg (by omega)]

/-- C4 witness: spending 1000 gold from 100 signals the error, while
adding 50 succeeds. -/
theorem c4_add_gold_guard_witness :
    add_gold sampleChar (-1000) = .error .insufficientResources ∧
    add_gold sampleChar 50 = .ok { sampleChar with gold := sampleChar.gold + 50 } :=
  ⟨(c4_add_gold_guard sampleChar (-1000)).1 (by decide),
   (c4_add_gold_guard sampleChar 50).2 (by decide)⟩

/-- C5: saving a character and loading it back by name returns the very
same character record, all observable fields included. -/
theorem c5_save_load_roundtrip (s : SaveStore) (c : Character) :
    load_character (save_character s c) c.name = .ok c := by
  unfold load_character save_character
  simp [List.lookup_cons]

/-- C7: selling an item in the inventory removes exactly one instance
of it, credits exactly the integer floor of half its cost, and returns
the credited amount; selling an absent item signals item-not-found. -/
theorem c7_sell_item_halves_cost (c : Character) (iid : String)
    (idef : ItemDef) :
    (iid ∈ c.inventory →
      ∃ r, sell_item c iid idef = .ok r ∧
        r.2 = idef.cost / 2 ∧
        r.1.gold = c.gold + ((idef.cost / 2 : Nat) : Int) ∧
        r.1.inventory.count iid = c.inventory.count iid - 1 ∧
        r.1.inventory.length = c.inventory.length - 1) ∧
    (iid ∉ c.inventory → sell_item c iid idef = .error .itemNotFound) := by
  constructor
  · intro hmem
    exact ⟨({ c with inventory := c.inventory.erase iid, gold := c.gold + ((idef.cost / 2 : Nat) : Int) }, idef.cost / 2), by unfold sell_item; rw [if_pos hmem], rfl, rfl, List.count_erase_self _ _, List.length_erase_of_mem hmem⟩
  · intro hmem
    unfold sell_item
    rw [if_neg hmem]

/-- C7 witness: selling the 25-gold potion credits exactly 12 gold and
removes the single potion from the inventory. -/
theorem c7_sell_item_halves_cost_witness :
    (∃ r, sell_item sampleChar "health_potion" samplePotion = .ok r ∧
      r.2 = samplePotion.cost / 2 ∧
      r.1.gold = sampleChar.gold + ((samplePotion.cost / 2 : Nat) : Int) ∧
      r.1.inventory.count "health_potion"
        = sampleChar.inventory.count "health_potion" - 1 ∧
      r.1.inventory.length = sampleChar.inventory.length - 1) ∧
    samplePotion.cost / 2 = 12 :=
  ⟨(c7_sell_item_halves_cost sampleChar "health_potion" samplePotion).1
      (by decide), by decide⟩

/-- C8: `player_turn` on an inactive battle signals combat-not-active
and yields no updated battle (no damage to either side); on an active
battle it leaves the character untouched, lowers enemy health by
the strength-derived damage of the character floored at 0, and deactivates
combat when enemy health reaches 0. -/
theorem c8_player_turn_requires_active (b : Battle) :
    (b.combat_active = false →
      player_turn b = .error .combatNotActive) ∧
    (b.combat_active = true →
      ∃ b', player_turn b = .ok b' ∧
        b'.character = b.character ∧
        b'.enemy.health = b.enemy.health - b.character.strength ∧
        (b'.enemy.health = 0 → b'.combat_active = false)) := by
  constructor
  · intro h
    unfold player_turn
    rw [if_pos h]
  · intro h
    refine ⟨{ b with enemy := { b.enemy with health := b.enemy.health - b.character.strength }, combat_active := if b.enemy.health - b.character.strength = 0 then false else b.combat_active }, ?_, rfl, rfl, ?_⟩
    · unfold player_turn
      rw [if_neg (by simp [h])]
    · intro hz
      show (if b.enemy.health - b.character.strength = 0 then false
            else b.combat_active) = false
      rw [if_pos hz]

/-- C8 witness: the deactivated sample battle signals combat-not-active,
while the active one deals the warrior damage of 15 to the goblin health of 30. -/
theorem c8_player_turn_requires_active_witness :
    player_turn sampleBattleInactive = .error .combatNotActive ∧
    (∃ b', player_turn sampleBattle = .ok b' ∧
      b'.character = sampleBattle.character ∧
      b'.enemy.health
        = sampleBattle.enemy.health - sampleBattle.character.strength ∧
      (b'.enemy.health = 0 → b'.combat_active = false)) :=
  ⟨(c8_player_turn_requires_active sampleBattleInactive).1 (by decide),
   (c8_player_turn_requires_active sampleBattle).2 (by decide)⟩

/-- C1: for a living character, `gain_experience` adds the amount to
experience and runs the threshold loop: cumulative experience grows by
exactly the amount, the residual experience ends below the current
threshold and max health never shrinks; an amount below the remaining
threshold changes experience alone; and gaining exactly the current
threshold (100 × level) yields exactly one level-up — level + 1,
experience unchanged, max health grown by the per-level amount, and
health fully restored to the new max health. -/
theorem c1_gain_experience_leveling (c : Character) (amount : Nat)
    (halive : c.health ≠ 0) (hlvl : 1 ≤ c.level)
    (hxp : c.experience < 100 * c.level) :
    (∃ c', gain_experience c amount = .ok c' ∧
       xpValue c' = xpValue c + amount ∧
       c'.experience < 100 * c'.level ∧
       c.max_health ≤ c'.max_health) ∧
    (c.experience + amount < 100 * c.level →
       gain_experience c amount
         = .ok { c with experience := c.experience + amount }) ∧
    gain_experience c (100 * c.level) = .ok { c with
       level := c.level + 1,
       experience := c.experience,
       max_health := c.max_health + 20,
       health := c.max_health + 20 } := by
  refine ⟨?_, ?_, ?_⟩
  · obtain ⟨c', h1, h2, h3, _, _⟩ := gain_experience_props c amount halive hlvl
    refine ⟨c', h1, h2, h3, ?_⟩
    have heq : gain_experience c amount = .ok { c with
        level := (levelLoop c.level (c.experience + amount) c.max_health c.health).1,
        experience := (levelLoop c.level (c.experience + amount) c.max_health c.health).2.1,
        max_health := (levelLoop c.level (c.experience + amount) c.max_health c.health).2.2.1,
        health := (levelLoop c.level (c.experience + amount) c.max_health c.health).2.2.2 } := by
      unfold gain_experience
      rw [if_neg halive]
    rw [heq] at h1
    obtain rfl : _ = c' := by simpa using h1
    exact (levelLoop_mono _ _ _ _).2
  · intro hsmall
    unfold gain_experience
    rw [if_neg halive]
    have hstop := levelLoop_stop c.level (c.experience + amount)
      c.max_health c.health (by omega)
    rw [hstop]
  · unfold gain_experience
    rw [if_neg halive]
    have hstep := levelLoop_step c.level (c.experience + 100 * c.level)
      c.max_health c.health hlvl (by omega)
    rw [hstep, Nat.add_sub_cancel]
    have hstop := levelLoop_stop (c.level + 1) c.experience
      (c.max_health + 20) (c.max_health + 20) (by omega)
    rw [hstop]

/-- C1 witness: the level-1 sample character with 40 experience gains
100 experience and levels up exactly once, at full health. -/
theorem c1_gain_experience_leveling_witness :
    gain_experience sampleChar (100 * sampleChar.level) = .ok { sampleChar with
      level := sampleChar.level + 1,
      experience := sampleChar.experience,
      max_health := sampleChar.max_health + 20,
      health := sampleChar.max_health + 20 } :=
  (c1_gain_experience_leveling sampleChar 0 (by decide) (by decide)
    (by decide)).2.2

/-- C6: equipping a weapon (resp. armor) adds the encoded bonus to
strength (resp. max health) and records the item id in the slot;
equipping a second item first removes the bonus of the previous item, so the
stat ends at base plus exactly the new bonus, never two bonuses; and
re-equipping the same item leaves the stat unchanged. -/
theorem c6_equip_replaces_bonus (c : Character) (iidA iidB : String)
    (aDef bDef : ItemDef) :
    (aDef.type = .weapon → bDef.type = .weapon →
      ∃ c1 c2 c3,
        equip_weapon c iidA aDef = .ok c1 ∧
        c1.strength = c.strength - c.weapon_bonus + aDef.effectMagnitude ∧
        c1.equipped_weapon = some iidA ∧
        equip_weapon c1 iidB bDef = .ok c2 ∧
        c2.strength = c.strength - c.weapon_bonus + bDef.effectMagnitude ∧
        c2.equipped_weapon = some iidB ∧
        equip_weapon c1 iidA aDef = .ok c3 ∧
        c3.strength = c1.strength ∧
        c3.equipped_weapon = some iidA) ∧
    (aDef.type = .armor → bDef.type = .armor →
      ∃ c1 c2 c3,
        equip_armor c iidA aDef = .ok c1 ∧
        c1.max_health
          = c.max_health - c.armor_bonus + aDef.effectMagnitude ∧
        c1.equipped_armor = some iidA ∧
        equip_armor c1 iidB bDef = .ok c2 ∧
        c2.max_health
          = c.max_health - c.armor_bonus + bDef.effectMagnitude ∧
        c2.equipped_armor = some iidB ∧
        equip_armor c1 iidA aDef = .ok c3 ∧
        c3.max_health = c1.max_health ∧
        c3.health = c1.health ∧
        c3.equipped_armor = some iidA) := by
  constructor
  · intro hA hB
    have h1 : equip_weapon c iidA aDef = .ok { c with strength := c.strength - c.weapon_bonus + aDef.effectMagnitude, weapon_bonus := aDef.effectMagnitude, equipped_weapon := some iidA } := by
      unfold equip_weapon
      rw [if_neg (by simp [hA])]
    have h2 : equip_weapon { c with strength := c.strength - c.weapon_bonus + aDef.effectMagnitude, weapon_bonus := aDef.effectMagnitude, equipped_weapon := some iidA } iidB bDef = .ok { c with strength := c.strength - c.weapon_bonus + aDef.effectMagnitude - aDef.effectMagnitude + bDef.effectMagnitude, weapon_bonus := bDef.effectMagnitude, equipped_weapon := some iidB } := by
      unfold equip_weapon
      rw [if_neg (by simp [hB])]
    have h3 : equip_weapon { c with strength := c.strength - c.weapon_bonus + aDef.effectMagnitude, weapon_bonus := aDef.effectMagnitude, equipped_weapon := some iidA } iidA aDef = .ok { c with strength := c.strength - c.weapon_bonus + aDef.effectMagnitude - aDef.effectMagnitude + aDef.effectMagnitude, weapon_bonus := aDef.effectMagnitude, equipped_weapon := some iidA } := by
      unfold equip_weapon
      rw [if_neg (by simp [hA])]
    refine ⟨_, _, _, h1, rfl, rfl, h2, ?_, rfl, h3, ?_, rfl⟩
    · show c.strength - c.weapon_bonus + aDef.effectMagnitude
          - aDef.effectMagnitude + bDef.effectMagnitude
        = c.strength - c.weapon_bonus + bDef.effectMagnitude
      omega
    · show c.strength - c.weapon_bonus + aDef.effectMagnitude
          - aDef.effectMagnitude + aDef.effectMagnitude
        = c.strength - c.weapon_bonus + aDef.effectMagnitude
      omega
  · intro hA hB
    have h1 : equip_armor c iidA aDef = .ok { c with max_health := c.max_health - c.armor_bonus + aDef.effectMagnitude, health := min c.health (c.max_health - c.armor_bonus + aDef.effectMagnitude), armor_bonus := aDef.effectMagnitude, equipped_armor := some iidA } := by
      unfold equip_armor
      rw [if_neg (by simp [hA])]
    have h2 : equip_armor { c with max_health := c.max_health - c.armor_bonus + aDef.effectMagnitude, health := min c.health (c.max_health - c.armor_bonus + aDef.effectMagnitude), armor_bonus := aDef.effectMagnitude, equipped_armor := some iidA } iidB bDef = .ok { c with max_health := c.max_health - c.armor_bonus + aDef.effectMagnitude - aDef.effectMagnitude + bDef.effectMagnitude, health := min (min c.health (c.max_health - c.armor_bonus + aDef.effectMagnitude)) (c.max_health - c.armor_bonus + aDef.effectMagnitude - aDef.effectMagnitude + bDef.effectMagnitude), armor_bonus := bDef.effectMagnitude, equipped_armor := some iidB } := by
      unfold equip_armor
      rw [if_neg (by simp [hB])]
    have h3 : equip_armor { c with max_health := c.max_health - c.armor_bonus + aDef.effectMagnitude, health := min c.health (c.max_health - c.armor_bonus + aDef.effectMagnitude), armor_bonus := aDef.effectMagnitude, equipped_armor := some iidA } iidA aDef = .ok { c with max_health := c.max_health - c.armor_bonus + aDef.effectMagnitude - aDef.effectMagnitude + aDef.effectMagnitude, health := min (min c.health (c.max_health - c.armor_bonus + aDef.effectMagnitude)) (c.max_health - c.armor_bonus + aDef.effectMagnitude - aDef.effectMagnitude + aDef.effectMagnitude), armor_bonus := aDef.effectMagnitude, equipped_armor := some iidA } := by
      unfold equip_armor
      rw [if_neg (by simp [hA])]
    refine ⟨_, _, _, h1, rfl, rfl, h2, ?_, rfl, h3, ?_, ?_, rfl⟩
    · show c.max_health - c.armor_bonus + aDef.effectMagnitude
          - aDef.effectMagnitude + bDef.effectMagnitude
        = c.max_health - c.armor_bonus + bDef.effectMagnitude
      omega
    · show c.max_health - c.armor_bonus + aDef.effectMagnitude
          - aDef.effectMagnitude + aDef.effectMagnitude
        = c.max_health - c.armor_bonus + aDef.effectMagnitude
      omega
    · show min (min c.health (c.max_health - c.armor_bonus + aDef.effectMagnitude))
            (c.max_health - c.armor_bonus + aDef.effectMagnitude
              - aDef.effectMagnitude + aDef.effectMagnitude)
        = min c.health (c.max_health - c.armor_bonus + aDef.effectMagnitude)
      omega

/-- C6 witness: on the bare sample warrior, equipping the sword then
the axe ends strength at base + 9 only, and re-equipping the sword
leaves strength at base + 5. -/
theorem c6_equip_replaces_bonus_witness :
    ∃ c1 c2 c3,
      equip_weapon sampleChar "iron_sword" sampleSword = .ok c1 ∧
      c1.strength = sampleChar.strength - sampleChar.weapon_bonus
        + sampleSword.effectMagnitude ∧
      c1.equipped_weapon = some "iron_sword" ∧
      equip_weapon c1 "steel_axe" sampleAxe = .ok c2 ∧
      c2.strength = sampleChar.strength - sampleChar.weapon_bonus
        + sampleAxe.effectMagnitude ∧
      c2.equipped_weapon = some "steel_axe" ∧
      equip_weapon c1 "iron_sword" sampleSword = .ok c3 ∧
      c3.strength = c1.strength ∧
      c3.equipped_weapon = some "iron_sword" :=
  (c6_equip_replaces_bonus sampleChar "iron_sword" "steel_axe"
    sampleSword sampleAxe).1 rfl rfl

/-- C2: `complete_quest` signals quest-not-active by membership in
`active_quests` alone, whatever the definition table holds; on success
(quest active, defined, character alive) the quest id leaves
`active_quests`, appears exactly once in `completed_quests`, and the
character gains exactly the reward gold of the quest through `add_gold` and
exactly its reward experience (measured as cumulative experience)
through `gain_experience`. -/
theorem c2_complete_quest_transition (c : Character) (qid : String)
    (defs : List (String × QuestDef)) :
    (qid ∉ c.active_quests →
      complete_quest c qid defs = .error .questNotActive) ∧
    (∀ q, defs.lookup qid = some q →
      qid ∈ c.active_quests →
      c.health ≠ 0 →
      1 ≤ c.level →
      c.active_quests.Nodup →
      qid ∉ c.completed_quests →
      0 ≤ c.gold →
      ∃ c', complete_quest c qid defs = .ok c' ∧
        qid ∉ c'.active_quests ∧
        c'.completed_quests.count qid = 1 ∧
        c'.gold = c.gold + (q.reward_gold : Int) ∧
        xpValue c' = xpValue c + q.reward_xp) := by
  constructor
  · intro hnot
    unfold complete_quest
    rw [if_neg hnot]
  · intro q hq hact halive hlvl hnodup hnotdone hgold
    obtain ⟨c2, hok, hxpv, _, _, _, hgold2, _, hact2, hcomp2⟩ :=
      gain_experience_props (quest_move c qid) q.reward_xp halive hlvl
    have hadd : add_gold c2 (q.reward_gold : Int)
        = .ok { c2 with gold := c2.gold + (q.reward_gold : Int) } :=
      add_gold_nonneg_ok c2 q.reward_gold (by rw [hgold2]; exact hgold)
    refine ⟨{ c2 with gold := c2.gold + (q.reward_gold : Int) },
      ?_, ?_, ?_, ?_, ?_⟩
    · unfold complete_quest
      rw [if_pos hact, hq]
      show (match gain_experience (quest_move c qid) q.reward_xp with
            | Except.error e => Except.error e
            | Except.ok c2' => add_gold c2' (q.reward_gold : Int)) = _
      rw [hok]
      exact hadd
    · show qid ∉ c2.active_quests
      rw [hact2]
      show qid ∉ c.active_quests.erase qid
      exact fun hmem => ((hnodup.mem_erase_iff).mp hmem).1 rfl
    · show c2.completed_quests.count qid = 1
      rw [hcomp2]
      show (c.completed_quests.insert qid).count qid = 1
      rw [List.insert_of_not_mem hnotdone, List.count_cons_self,
        List.count_eq_zero.mpr hnotdone]
    · show c2.gold + (q.reward_gold : Int) = c.gold + (q.reward_gold : Int)
      rw [hgold2]
      rfl
    · show xpValue c2 = xpValue c + q.reward_xp
      rw [hxpv]
      rfl

/-- C2 witness: the sample character completes its active quest `q1`,
which moves the id to completed exactly once and grants 25 gold and 50
cumulative experience. -/
theorem c2_complete_quest_transition_witness :
    ∃ c', complete_quest sampleChar "q1" sampleDefs = .ok c' ∧
      "q1" ∉ c'.active_quests ∧
      c'.completed_quests.count "q1" = 1 ∧
      c'.gold = sampleChar.gold + (sampleQuest.reward_gold : Int) ∧
      xpValue c' = xpValue sampleChar + sampleQuest.reward_xp :=
  (c2_complete_quest_transition sampleChar "q1" sampleDefs).2 sampleQuest
    (by decide) (by decide) (by decide) (by decide) (by decide) (by decide)
    (by decide)

/-- C3: every operation of the character model, inventory and economy,
quest state machine and combat engine preserves the character
invariants — health in [0, max_health], gold never negative, each quest
id in at most one of the active and completed sets, and the inventory
within capacity (`CharInv` also carries the set representation of the
two quest collections). -/
theorem c3_operations_preserve_invariants :
    (∀ name cls c', create_character name cls = .ok c' → CharInv c') ∧
    (∀ c, CharInv c →
      (∀ amount c', gain_experience c amount = .ok c' → CharInv c') ∧
      (∀ delta c', add_gold c delta = .ok c' → CharInv c') ∧
      (∀ amount, CharInv (heal_character c amount)) ∧
      (∀ iid c', add_item_to_inventory c iid = .ok c' → CharInv c') ∧
      (∀ iid c', remove_item_from_inventory c iid = .ok c' → CharInv c') ∧
      (∀ iid idef c', use_item c iid idef = .ok c' → CharInv c') ∧
      (∀ iid idef c', equip_weapon c iid idef = .ok c' → CharInv c') ∧
      (∀ iid idef c', equip_armor c iid idef = .ok c' → CharInv c') ∧
      (∀ iid idef c', purchase_item c iid idef = .ok c' → CharInv c') ∧
      (∀ iid idef r, sell_item c iid idef = .ok r → CharInv r.1) ∧
      (∀ qid defs c', accept_quest c qid defs = .ok c' → CharInv c') ∧
      (∀ qid defs c', complete_quest c qid defs = .ok c' → CharInv c') ∧
      (∀ qid, CharInv (abandon_quest c qid))) ∧
    (∀ s : SaveStore, (∀ kv ∈ s, CharInv kv.2) →
      ∀ name c', load_character s name = .ok c' → CharInv c') ∧
    (∀ b : Battle, CharInv b.character →
      (∀ b', player_turn b = .ok b' → CharInv b'.character) ∧
      (∀ b', enemy_turn b = .ok b' → CharInv b'.character)) := by
  refine ⟨?_, ?_, ?_, ?_⟩
  · exact fun name cls c' h => create_character_inv name cls c' h
  · intro c hinv
    refine ⟨?_, ?_, ?_, ?_, ?_, ?_, ?_, ?_, ?_, ?_, ?_, ?_, ?_⟩
    · exact fun amount c' h => gain_experience_inv c amount hinv c' h
    · exact fun delta c' h => add_gold_inv c delta hinv c' h
    · exact fun amount => heal_character_inv c amount hinv
    · exact fun iid c' h => add_item_inv c iid c' hinv h
    · exact fun iid c' h => remove_item_inv c iid c' hinv h
    · exact fun iid idef c' h => use_item_inv c iid idef c' hinv h
    · exact fun iid idef c' h => equip_weapon_inv c iid idef c' hinv h
    · exact fun iid idef c' h => equip_armor_inv c iid idef c' hinv h
    · exact fun iid idef c' h => purchase_item_inv c iid idef c' hinv h
    · exact fun iid idef r h => sell_item_inv c iid idef r hinv h
    · exact fun qid defs c' h => accept_quest_inv c qid defs c' hinv h
    · exact fun qid defs c' h => complete_quest_inv c qid defs c' hinv h
    · exact fun qid => abandon_quest_inv c qid hinv
  · exact fun s hs name c' h => load_character_inv s hs name c' h
  · intro b hinv
    exact ⟨fun b' h => player_turn_inv b b' hinv h,
           fun b' h => enemy_turn_inv b b' hinv h⟩

/-- C3 witness: the sample character satisfies the invariants and still
does after healing. -/
theorem c3_operations_preserve_invariants_witness :
    CharInv (heal_character sampleChar 50) :=
  (c3_operations_preserve_invariants.2.1 sampleChar
    (by decide)).2.2.1 50

end QuestChronicles
